import Mathlib

/-!
Shallow embedding of the demand-management HTTP service in src/server.js
(the hardened first service in that file; the later minimal duplicate is
superseded and out of scope per the specification).

Modelling conventions:
  - a SQLite table is a Lean list of row structures; AUTOINCREMENT ids are
    threaded as an explicit nextId argument;
  - a JSON request body is a structure of Option fields, none modelling an
    absent key; JavaScript falsiness of a string field (absent or empty) is
    the truthyStr predicate;
  - each HTTP handler is a pure function from its inputs and the table state
    to a response value and the successor state; fire-and-forget audit writes
    are modelled as appends to an audit list;
  - node-sqlite3 binds JavaScript undefined and null as SQL NULL; a NOT NULL
    or UNIQUE violation makes the statement fail, which the handlers surface
    as a 500 response (or swallow, where the source swallows it);
  - dates compared by the validator are encoded through an order-embedding of
    calendar dates into Nat, so the comparison order agrees with the
    JavaScript Date comparison on the date-only strings the service receives.
-/

namespace GestaoDemander

/-- JavaScript truthiness of an optional string field: an absent key and the
empty string are falsy, every other string is truthy. -/
def truthyStr : Option String → Bool
  | none => false
  | some s => !(s == "")

/-- Order-embedding of a calendar date (year, month, day) into Nat: months and
days are below 32, so the encoding respects lexicographic date order. -/
def codificarData (ano mes dia : Nat) : Nat :=
  ano * 416 + mes * 32 + dia

/-- Whitespace predicate of the JavaScript trim for the characters in play. -/
def ehEspaco (c : Char) : Bool :=
  c == ' ' || c == '\t' || c == '\n' || c == '\r'

/-- JavaScript String.trim, written structurally over the character list. -/
def aparar (s : String) : String :=
  String.mk (((s.toList.dropWhile ehEspaco).reverse.dropWhile ehEspaco).reverse)

/-- Accumulator pass of the decimal numeral parse. -/
def analisarNatAux : Nat → List Char → Option Nat
  | acc, [] => some acc
  | acc, c :: resto =>
    if 48 ≤ c.toNat && c.toNat ≤ 57 then analisarNatAux (acc * 10 + (c.toNat - 48)) resto
    else none

/-- Parse of a nonempty decimal numeral. -/
def analisarNat (s : String) : Option Nat :=
  match s.toList with
  | [] => none
  | cs => analisarNatAux 0 cs

/-- Splits a character list at a separator character. -/
def dividirAux (sep : Char) : List Char → List (List Char)
  | [] => [[]]
  | c :: resto =>
    let grupos := dividirAux sep resto
    if c == sep then [] :: grupos
    else
      match grupos with
      | [] => [[c]]
      | g :: gs => (c :: g) :: gs

/-- Splits a string at a one-character separator. -/
def dividirEm (sep : Char) (s : String) : List String :=
  (dividirAux sep s.toList).map (fun g => String.mk g)

/-- Model of the JavaScript Date parse used by the validator, restricted to the
date-only strings (yyyy-mm-dd) the service receives. An unparsable string gives
none, matching an invalid Date whose NaN comparison against today is false. -/
def parseData (s : String) : Option Nat :=
  match (dividirEm '-' s).map analisarNat with
  | [some a, some m, some d] => some (codificarData a m d)
  | _ => none

/-- A JSON request body for the demandas endpoints. none models an absent key.
The local column of the schema is called localDemanda here because local is a
Lean keyword. -/
structure DemandaBody where
  nomeDemanda : Option String := none
  funcionarioId : Option Int := none
  nomeFuncionario : Option String := none
  emailFuncionario : Option String := none
  categoria : Option String := none
  prioridade : Option String := none
  complexidade : Option String := none
  descricao : Option String := none
  localDemanda : Option String := none
  dataCriacao : Option String := none
  dataLimite : Option String := none
  status : Option String := none
  isRotina : Option Bool := none
  diasSemana : Option (List String) := none
  tag : Option String := none
  comentarios : Option String := none
  comentarioGestor : Option String := none
  dataConclusao : Option String := none
  atribuidos : Option (List Int) := none
  criadoPor : Option Int := none
  usuarioId : Option Int := none
  deriving DecidableEq

/-- A stored row of the demandas table (CREATE TABLE, src/server.js lines
47-72). Nullable columns are Option; isRotina is the stored 0/1 integer;
diasSemana and atribuidos hold the serialized JSON strings. -/
structure Demanda where
  id : Nat
  funcionarioId : Option Int
  nomeFuncionario : Option String
  emailFuncionario : Option String
  categoria : Option String
  prioridade : Option String
  complexidade : Option String
  descricao : Option String
  localDemanda : Option String
  dataCriacao : String
  dataLimite : Option String
  status : String
  isRotina : Nat
  diasSemana : Option String
  tag : Option String
  comentarios : String
  comentarioGestor : String
  dataConclusao : Option String
  atribuidos : Option String
  dataAtualizacao : Option String
  criadoPor : Option Int
  atualizadoPor : Option Int
  deriving DecidableEq

/-- The validarDemanda middleware (src/server.js lines 139-189): the list of
violation messages, in source order; the request proceeds only when it is
empty. The due-date rule compares the parsed date with hoje, the start of the
current day in the date encoding; an unparsable date raises no error, like the
NaN comparison in the source. -/
def validarDemanda (hoje : Nat) (b : DemandaBody) : List String :=
  (if !truthyStr b.nomeDemanda || (aparar (b.nomeDemanda.getD "")).length < 3 then
    ["Nome da demanda é obrigatório e deve ter pelo menos 3 caracteres"] else []) ++
  (if !truthyStr b.categoria then ["Categoria é obrigatória"] else []) ++
  (if !truthyStr b.prioridade
      || !(["Importante", "Média", "Relevante"].contains (b.prioridade.getD "")) then
    ["Prioridade é obrigatória e deve ser: Importante, Média ou Relevante"] else []) ++
  (if !truthyStr b.complexidade
      || !(["Fácil", "Médio", "Difícil"].contains (b.complexidade.getD "")) then
    ["Complexidade é obrigatória e deve ser: Fácil, Médio ou Difícil"] else []) ++
  (if !truthyStr b.descricao || (aparar (b.descricao.getD "")).length < 10 then
    ["Descrição é obrigatória e deve ter pelo menos 10 caracteres"] else []) ++
  (if !truthyStr b.localDemanda then ["Local é obrigatório"] else []) ++
  (if !truthyStr b.dataLimite then ["Data limite é obrigatória"]
   else
     match parseData (b.dataLimite.getD "") with
     | none => []
     | some dl => if dl < hoje then ["Data limite não pode ser anterior a hoje"] else [])

/-- JSON.stringify of a string array; inner escaping is omitted because the
values in play contain no quotes. -/
def jsonStringifyStrings (xs : List String) : String :=
  "[" ++ String.intercalate "," (xs.map (fun s => "\"" ++ s ++ "\"")) ++ "]"

/-- JSON.stringify of an integer array. -/
def jsonStringifyInts (xs : List Int) : String :=
  "[" ++ String.intercalate "," (xs.map toString) ++ "]"

/-- JSON.stringify of a bare string value. -/
def jsonStringifyString (s : String) : String :=
  "\"" ++ s ++ "\""

/-- JS expression v ? JSON.stringify(v) : null for an optional array field;
every array, including the empty one, is truthy. -/
def paramLista (v : Option (List String)) : Option String :=
  v.map jsonStringifyStrings

/-- JS expression v ? JSON.stringify(v) : null for an optional integer array. -/
def paramListaInt (v : Option (List Int)) : Option String :=
  v.map jsonStringifyInts

/-- JS expression v || null on a string value: absent and empty give null. -/
def ouNulo : Option String → Option String
  | none => none
  | some s => if s == "" then none else some s

/-- JS expression v || empty-string on a string value. -/
def ouVazio (v : Option String) : String :=
  v.getD ""

/-- The dadosAntigos / dadosNovos payload of an audit row, kept structured: the
source stores JSON.stringify of the corresponding object, and stringify of null
or a missing argument gives the empty object. mesclado stands for the
dadosCompletos merge object of the update handler, determined by the existing
row and the request body. -/
inductive DadosAudit where
  | objetoVazio
  | corpo (d : DemandaBody)
  | linha (r : Demanda)
  | mesclado (existente : Demanda) (corpo : DemandaBody)
  deriving DecidableEq

/-- A row of the auditoria table as written by registrarAuditoria
(src/server.js lines 192-209). The dataHora column defaults to the database
clock and is omitted from the model. -/
structure AuditEntry where
  acao : String
  tabela : String
  registroId : Nat
  dadosAntigos : DadosAudit
  dadosNovos : DadosAudit
  usuarioId : Option Int
  ip : String
  deriving DecidableEq

/-- Tag generation of the create handler: DEM- prefix, current epoch
milliseconds, dash, random base-36 suffix (src/server.js line 306). -/
def gerarTag (agoraMs : Nat) (aleatorio : String) : String :=
  "DEM-" ++ toString agoraMs ++ "-" ++ aleatorio

/-- Response of POST /api/demandas. The ok payload echoes the body (with the
generated tag written into it) plus the assigned id and the dataCriacao that
was bound into the insert. -/
inductive CreateResp where
  | badRequest (errors : List String)
  | serverError (msg : String)
  | ok (id : Nat) (demanda : DemandaBody) (dataCriacao : String)
  deriving DecidableEq

/-- POST /api/demandas (src/server.js lines 301-361): validation middleware,
tag generation when the body has none, then the INSERT. Columns funcionarioId,
nomeFuncionario and emailFuncionario are NOT NULL, so a body missing them makes
the insert fail with a 500; tag is UNIQUE. On success the CREATE audit row is
appended; dataConclusao and atualizadoPor are not inserted and stay NULL, and
dataAtualizacao takes its database default, modelled by agoraIso. -/
def criarDemanda (hoje : Nat) (agoraIso tagGerada ip : String)
    (store : List Demanda) (nextId : Nat) (audit : List AuditEntry) (d0 : DemandaBody) :
    CreateResp × List Demanda × List AuditEntry :=
  let erros := validarDemanda hoje d0
  if 0 < erros.length then (.badRequest erros, store, audit)
  else
    let d := if truthyStr d0.tag then d0 else { d0 with tag := some tagGerada }
    let dataCriacaoParam :=
      match d.dataCriacao with
      | some s => if s == "" then agoraIso else s
      | none => agoraIso
    let statusParam :=
      match d.status with
      | some s => if s == "" then "pendente" else s
      | none => "pendente"
    if d.funcionarioId.isNone || d.nomeFuncionario.isNone || d.emailFuncionario.isNone ||
        d.categoria.isNone || d.prioridade.isNone || d.complexidade.isNone ||
        d.descricao.isNone || d.localDemanda.isNone || d.dataLimite.isNone then
      (.serverError "NOT NULL constraint failed", store, audit)
    else if store.any (fun r => r.tag == d.tag) then
      (.serverError "UNIQUE constraint failed: demandas.tag", store, audit)
    else
      let linha : Demanda :=
        { id := nextId
          funcionarioId := d.funcionarioId
          nomeFuncionario := d.nomeFuncionario
          emailFuncionario := d.emailFuncionario
          categoria := d.categoria
          prioridade := d.prioridade
          complexidade := d.complexidade
          descricao := d.descricao
          localDemanda := d.localDemanda
          dataCriacao := dataCriacaoParam
          dataLimite := d.dataLimite
          status := statusParam
          isRotina := if d.isRotina.getD false then 1 else 0
          diasSemana := paramLista d.diasSemana
          tag := d.tag
          comentarios := ouVazio d.comentarios
          comentarioGestor := ouVazio d.comentarioGestor
          dataConclusao := none
          atribuidos := paramListaInt d.atribuidos
          dataAtualizacao := some agoraIso
          criadoPor := d.funcionarioId
          atualizadoPor := none }
      (.ok nextId d dataCriacaoParam, store ++ [linha],
       audit ++ [{ acao := "CREATE", tabela := "demandas", registroId := nextId,
                   dadosAntigos := .objetoVazio, dadosNovos := .corpo d,
                   usuarioId := d.funcionarioId, ip := ip }])

/-- Body field wins over row field in the spread merge of the update handler. -/
def mesclaCampo {α : Type} (corpo : Option α) (valorLinha : Option α) : Option α :=
  match corpo with
  | some v => some v
  | none => valorLinha

/-- The parameter values bound by the UPDATE statement, computed from the
dadosCompletos merge object (src/server.js lines 379-420): the spread of the
body over the existing row, with id, dataCriacao and criadoPor deleted,
dataAtualizacao refreshed and atualizadoPor set from the body, and the source
transforms applied (1/0 for isRotina, stringify for the array-like fields, the
or-empty and or-null coalescings). A diasSemana or atribuidos value inherited
from the row is a truthy string and is stringified again, as in the source. -/
structure DadosCompletos where
  funcionarioId : Option Int
  nomeFuncionario : Option String
  emailFuncionario : Option String
  categoria : Option String
  prioridade : Option String
  complexidade : Option String
  descricao : Option String
  localDemanda : Option String
  dataLimite : Option String
  status : String
  isRotina : Nat
  diasSemana : Option String
  tag : Option String
  comentarios : String
  comentarioGestor : String
  dataConclusao : Option String
  atribuidos : Option String
  dataAtualizacao : String
  atualizadoPor : Option Int
  deriving DecidableEq

/-- Builds the UPDATE parameters from the existing row and the body. -/
def mesclar (ex : Demanda) (d : DemandaBody) (agoraIso : String) : DadosCompletos :=
  { funcionarioId := mesclaCampo d.funcionarioId ex.funcionarioId
    nomeFuncionario := mesclaCampo d.nomeFuncionario ex.nomeFuncionario
    emailFuncionario := mesclaCampo d.emailFuncionario ex.emailFuncionario
    categoria := mesclaCampo d.categoria ex.categoria
    prioridade := mesclaCampo d.prioridade ex.prioridade
    complexidade := mesclaCampo d.complexidade ex.complexidade
    descricao := mesclaCampo d.descricao ex.descricao
    localDemanda := mesclaCampo d.localDemanda ex.localDemanda
    dataLimite := mesclaCampo d.dataLimite ex.dataLimite
    status :=
      match d.status with
      | some s => s
      | none => ex.status
    isRotina :=
      if (match d.isRotina with
          | some b => b
          | none => ex.isRotina != 0) then 1 else 0
    diasSemana :=
      match d.diasSemana with
      | some l => some (jsonStringifyStrings l)
      | none =>
        match ex.diasSemana with
        | none => none
        | some s => if s == "" then none else some (jsonStringifyString s)
    tag := mesclaCampo d.tag ex.tag
    comentarios :=
      match d.comentarios with
      | some s => s
      | none => ex.comentarios
    comentarioGestor :=
      match d.comentarioGestor with
      | some s => s
      | none => ex.comentarioGestor
    dataConclusao := ouNulo (mesclaCampo d.dataConclusao ex.dataConclusao)
    atribuidos :=
      match d.atribuidos with
      | some l => some (jsonStringifyInts l)
      | none =>
        match ex.atribuidos with
        | none => none
        | some s => if s == "" then none else some (jsonStringifyString s)
    dataAtualizacao := agoraIso
    atualizadoPor := d.funcionarioId }

/-- Applies the UPDATE statement to a row: every column of the SET list is
overwritten from the parameters; id, dataCriacao and criadoPor are not in the
SET list and keep the values of the row. -/
def aplicarAtualizacao (r : Demanda) (m : DadosCompletos) : Demanda :=
  { r with
    funcionarioId := m.funcionarioId
    nomeFuncionario := m.nomeFuncionario
    emailFuncionario := m.emailFuncionario
    categoria := m.categoria
    prioridade := m.prioridade
    complexidade := m.complexidade
    descricao := m.descricao
    localDemanda := m.localDemanda
    dataLimite := m.dataLimite
    status := m.status
    isRotina := m.isRotina
    diasSemana := m.diasSemana
    tag := m.tag
    comentarios := m.comentarios
    comentarioGestor := m.comentarioGestor
    dataConclusao := m.dataConclusao
    atribuidos := m.atribuidos
    dataAtualizacao := some m.dataAtualizacao
    atualizadoPor := m.atualizadoPor }

/-- Response of PUT /api/demandas/:id. The ok payload is determined by the id,
the pre-update row and the body (the source echoes id spread with
dadosCompletos). -/
inductive UpdateResp where
  | badRequest (errors : List String)
  | notFound (msg : String)
  | serverError (msg : String)
  | ok (id : Nat) (existente : Demanda) (corpo : DemandaBody)
  deriving DecidableEq

/-- PUT /api/demandas/:id (src/server.js lines 364-450): validation middleware,
existence lookup, merge, UPDATE, audit row. NOT NULL columns of the SET list
must receive non-NULL values and tag stays UNIQUE against the other rows,
otherwise the statement fails with a 500 and nothing changes. -/
def atualizarDemanda (hoje : Nat) (agoraIso ip : String)
    (store : List Demanda) (audit : List AuditEntry) (id : Nat) (d : DemandaBody) :
    UpdateResp × List Demanda × List AuditEntry :=
  let erros := validarDemanda hoje d
  if 0 < erros.length then (.badRequest erros, store, audit)
  else
    match store.find? (fun r => r.id == id) with
    | none => (.notFound "Demanda não encontrada", store, audit)
    | some ex =>
      let m := mesclar ex d agoraIso
      if m.funcionarioId.isNone || m.nomeFuncionario.isNone || m.emailFuncionario.isNone ||
          m.categoria.isNone || m.prioridade.isNone || m.complexidade.isNone ||
          m.descricao.isNone || m.localDemanda.isNone || m.dataLimite.isNone then
        (.serverError "NOT NULL constraint failed", store, audit)
      else if store.any (fun r => r.id != id && m.tag.isSome && r.tag == m.tag) then
        (.serverError "UNIQUE constraint failed: demandas.tag", store, audit)
      else
        (.ok id ex d,
         store.map (fun r => if r.id == id then aplicarAtualizacao r m else r),
         audit ++ [{ acao := "UPDATE", tabela := "demandas", registroId := id,
                     dadosAntigos := .linha ex, dadosNovos := .mesclado ex d,
                     usuarioId := d.funcionarioId, ip := ip }])

/-- Response of DELETE /api/demandas/:id. -/
inductive DeleteResp where
  | notFound (msg : String)
  | ok
  deriving DecidableEq

/-- JS req.body.usuarioId || null: zero is falsy and becomes null. -/
def usuarioOuNulo : Option Int → Option Int
  | none => none
  | some v => if v == 0 then none else some v

/-- DELETE /api/demandas/:id (src/server.js lines 453-490): lookup, 404 when
absent, otherwise the row is removed and the DELETE audit row appended with the
removed row as dadosAntigos and the empty object as dadosNovos. -/
def excluirDemanda (ip : String) (store : List Demanda) (audit : List AuditEntry)
    (id : Nat) (usuarioCorpo : Option Int) :
    DeleteResp × List Demanda × List AuditEntry :=
  match store.find? (fun r => r.id == id) with
  | none => (.notFound "Demanda não encontrada", store, audit)
  | some demanda =>
    (.ok, store.filter (fun r => r.id != id),
     audit ++ [{ acao := "DELETE", tabela := "demandas", registroId := id,
                 dadosAntigos := .linha demanda, dadosNovos := .objetoVazio,
                 usuarioId := usuarioOuNulo usuarioCorpo, ip := ip }])

/-- Pagination metadata of the list response. total models countRow.count and
pages models Math.ceil of total over limit; none models the JavaScript
undefined (respectively NaN) those expressions produce when the count property
is missing. -/
structure Pagination where
  page : Nat
  limit : Nat
  total : Option Nat
  pages : Option Nat
  deriving DecidableEq

/-- Query parameters of GET /api/demandas with the source defaults. -/
structure ListQuery where
  page : Nat := 1
  limit : Nat := 50
  status : Option String := none
  funcionarioId : Option Int := none
  categoria : Option String := none
  prioridade : Option String := none
  dataInicio : Option String := none
  dataFim : Option String := none
  orderBy : String := "dataCriacao"
  orderDirection : String := "DESC"

/-- Response payload of GET /api/demandas. -/
structure ListResult where
  data : List Demanda
  pagination : Pagination
  deriving DecidableEq

/-- Strict codepoint order on character lists, the order SQLite uses for TEXT
comparison on the values in play. -/
def ltChars : List Char → List Char → Bool
  | [], [] => false
  | [], _ :: _ => true
  | _ :: _, [] => false
  | a :: resto1, b :: resto2 =>
    if a.toNat < b.toNat then true
    else if b.toNat < a.toNat then false
    else ltChars resto1 resto2

/-- Strict text order for SQLite TEXT values. -/
def ltTexto (a b : String) : Bool :=
  ltChars a.toList b.toList

/-- SQLite ordering on a possibly NULL column value: NULL sorts before every
text value ascending. -/
def leValor : Option String → Option String → Bool
  | none, _ => true
  | some _, none => false
  | some a, some b => !(ltTexto b a)

/-- The WHERE filters of GET /api/demandas: each present query parameter adds
an equality (or dataCriacao range bound) conjunct; comparison of a NULL column
with a value is false, as in SQL. -/
def filtroLista (q : ListQuery) (r : Demanda) : Bool :=
  (match q.status with
   | none => true
   | some s => r.status == s) &&
  (match q.funcionarioId with
   | none => true
   | some f => r.funcionarioId == some f) &&
  (match q.categoria with
   | none => true
   | some c => r.categoria == some c) &&
  (match q.prioridade with
   | none => true
   | some p => r.prioridade == some p) &&
  (match q.dataInicio with
   | none => true
   | some d0 => !(ltTexto r.dataCriacao d0)) &&
  (match q.dataFim with
   | none => true
   | some d1 => !(ltTexto d1 r.dataCriacao))

/-- Value of the ORDER BY column for a row; unrecognized fields fall back to
dataCriacao before this function is called. -/
def campoOrdenacao (campo : String) (r : Demanda) : Option String :=
  if campo == "dataLimite" then r.dataLimite
  else if campo == "status" then some r.status
  else if campo == "prioridade" then r.prioridade
  else if campo == "categoria" then r.categoria
  else some r.dataCriacao

/-- Insertion step of the sort. -/
def inserirPor (le : Demanda → Demanda → Bool) (r : Demanda) :
    List Demanda → List Demanda
  | [] => [r]
  | x :: xs => if le r x then r :: x :: xs else x :: inserirPor le r xs

/-- Insertion sort of the result rows by the ORDER BY comparator. -/
def ordenarPor (le : Demanda → Demanda → Bool) : List Demanda → List Demanda
  | [] => []
  | x :: xs => inserirPor le x (ordenarPor le xs)

/-- The ORDER BY allow-list of the list endpoint. -/
def camposOrdemPermitidos : List String :=
  ["dataCriacao", "dataLimite", "status", "prioridade", "categoria"]

/-- The toUpperCase comparison with ASC of the list handler, written over
codepoints: ASCII lowercase letters are uppercased and the result compared
with the codepoints of ASC. -/
def ehAsc (s : String) : Bool :=
  s.toList.map (fun c => if 97 ≤ c.toNat && c.toNat ≤ 122 then c.toNat - 32 else c.toNat)
    == [65, 83, 67]

/-- Property access on the single row returned by the count query, modelled as
a name-value list: a missing property gives none (JavaScript undefined). -/
def propriedadeNat (linha : List (String × Nat)) (chave : String) : Option Nat :=
  (linha.find? (fun p => p.1 == chave)).map (fun p => p.2)

/-- GET /api/demandas (src/server.js lines 212-298): filters, allow-listed
ORDER BY with DESC default, LIMIT and OFFSET computed from page and limit, then
the count query. The count SQL is the data SQL with SELECT COUNT(*) substituted
and no alias, so the only column of its row is named COUNT(*), and the handler
reads countRow.count: total is undefined and pages is NaN, both modelled none. -/
def listarDemandas (store : List Demanda) (q : ListQuery) : ListResult :=
  let campo := if camposOrdemPermitidos.contains q.orderBy then q.orderBy else "dataCriacao"
  let asc := ehAsc q.orderDirection
  let le : Demanda → Demanda → Bool := fun a b =>
    if asc then leValor (campoOrdenacao campo a) (campoOrdenacao campo b)
    else leValor (campoOrdenacao campo b) (campoOrdenacao campo a)
  let filtradas := store.filter (filtroLista q)
  let ordenadas := ordenarPor le filtradas
  let offset := (q.page - 1) * q.limit
  let dados := (ordenadas.drop offset).take q.limit
  let linhaContagem : List (String × Nat) := [("COUNT(*)", filtradas.length)]
  let total := propriedadeNat linhaContagem "count"
  let pages := total.map (fun t => (t + q.limit - 1) / q.limit)
  { data := dados,
    pagination := { page := q.page, limit := q.limit, total := total, pages := pages } }

/-- The columns of the demandas table, as declared by the CREATE TABLE
statement (src/server.js lines 47-72). -/
def colunasDemandas : List String :=
  ["id", "funcionarioId", "nomeFuncionario", "emailFuncionario", "categoria", "prioridade",
   "complexidade", "descricao", "local", "dataCriacao", "dataLimite", "status", "isRotina",
   "diasSemana", "tag", "comentarios", "comentarioGestor", "dataConclusao", "atribuidos",
   "dataAtualizacao", "criadoPor", "atualizadoPor"]

/-- The demandas columns referenced by the search SQL (src/server.js lines
533-544). -/
def colunasBuscaSql : List String :=
  ["nomeDemanda", "descricao", "tag"]

/-- Statement preparation check: SQLite rejects a statement referencing a
column the schema does not declare. Gives the first missing column, if any. -/
def colunaFaltante : Option String :=
  colunasBuscaSql.find? (fun c => !(colunasDemandas.contains c))

/-- Response of GET /api/demandas/search. -/
inductive SearchResp where
  | ok (data : List Demanda)
  | serverError (msg : String)
  deriving DecidableEq

/-- GET /api/demandas/search (src/server.js lines 526-556): a missing query or
one shorter than two characters returns an empty list before any SQL runs.
Otherwise the handler prepares a statement referencing nomeDemanda, descricao
and tag; nomeDemanda is not a column of the demandas table, so preparation
fails with a no-such-column error, which the callback answers as a 500. The
prepared branch is therefore unreachable for this schema and its result value
is never observed; no ranked result list is ever produced. -/
def buscarDemandas (store : List Demanda) (q : Option String) : SearchResp :=
  match q with
  | none => .ok []
  | some s =>
    if s.length < 2 then .ok []
    else
      match colunaFaltante with
      | some c => .serverError ("no such column: " ++ c)
      | none => .ok (store.filter (fun _ => false))

/-- A row of the backups index table (CREATE TABLE, src/server.js lines
98-107). tamanho is Option to model the NULL binding the source produces;
dataCriacao is the registration timestamp text with its database default. -/
structure BackupRow where
  id : Nat
  nomeArquivo : String
  dataBackup : String
  tamanho : Option Nat
  tipo : String
  dataCriacao : String
  deriving DecidableEq

/-- INSERT INTO backups, respecting the NOT NULL constraint on tamanho: a NULL
binding makes the insert fail; the error is logged and swallowed and the table
is unchanged. -/
def registrarBackupNoBanco (tabela : List BackupRow) (nextId : Nat)
    (nomeArquivo dataBackup : String) (tamanho : Option Nat) (tipo : String)
    (registradoEm : String) : List BackupRow :=
  match tamanho with
  | none => tabela
  | some t =>
    tabela ++ [{ id := nextId, nomeArquivo := nomeArquivo, dataBackup := dataBackup,
                 tamanho := some t, tipo := tipo, dataCriacao := registradoEm }]

/-- JS backupData.length: the backup envelope object has no length property, so
the expression is undefined and binds as NULL. -/
def tamanhoDoBackup : Option Nat :=
  none

/-- The index-registration step of criarBackup (src/server.js lines 699-706).
The file name is backup_tipo_timestamp.json; the dataBackup column is bound to
JSON.stringify(backupData) — the whole serialized envelope, passed here as the
serializado argument, not the timestamp — and tamanho to backupData.length. -/
def criarBackupRegistro (tabela : List BackupRow) (nextId : Nat)
    (timestamp tipo serializado registradoEm : String) : List BackupRow :=
  registrarBackupNoBanco tabela nextId ("backup_" ++ tipo ++ "_" ++ timestamp ++ ".json")
    serializado tamanhoDoBackup tipo registradoEm

/-- Insertion step of the backup sort, newest registration first. -/
def inserirBackupDesc (r : BackupRow) : List BackupRow → List BackupRow
  | [] => [r]
  | x :: xs =>
    if !(ltTexto r.dataCriacao x.dataCriacao) then r :: x :: xs
    else x :: inserirBackupDesc r xs

/-- ORDER BY dataCriacao DESC over backup rows. -/
def ordenarBackupsDesc : List BackupRow → List BackupRow
  | [] => []
  | x :: xs => inserirBackupDesc x (ordenarBackupsDesc xs)

/-- SELECT id FROM backups WHERE tipo is auto ORDER BY dataCriacao DESC
LIMIT 10, 999999 (src/server.js line 711): in SQLite this is OFFSET 10 LIMIT
999999, the ids of every auto row after the ten most recently created ones. -/
def idsAposDezMaisRecentes (tabela : List BackupRow) : List Nat :=
  (((ordenarBackupsDesc (tabela.filter (fun b => b.tipo == "auto"))).drop 10).take 999999).map
    (fun b => b.id)

/-- The pruning step of criarBackup for tipo auto (src/server.js lines
708-722): the selected ids are interpolated into DELETE FROM backups WHERE tipo
is auto AND id NOT IN that list; when the selection is empty no delete runs. -/
def podarBackupsAuto (tabela : List BackupRow) : List BackupRow :=
  let idsParaManter := idsAposDezMaisRecentes tabela
  if 0 < idsParaManter.length then
    tabela.filter (fun b => !(b.tipo == "auto" && !(idsParaManter.contains b.id)))
  else tabela

/-- The demandas field of a parsed backup file: absent, present but not an
array, or an array of record objects. -/
inductive CampoDemandas where
  | ausente
  | naoArray
  | lista (ds : List DemandaBody)
  deriving DecidableEq

/-- What reading and parsing a backup file can yield: the read or JSON.parse
throws (ilegivel), the file parses to null so the demandas access throws
(nulo), or it parses to an object with its demandas field. -/
inductive ConteudoArquivo where
  | ilegivel
  | nulo
  | objeto (demandas : CampoDemandas)
  deriving DecidableEq

/-- Response of POST /api/restore. semResposta models the handler path that
sends no response at all: the file parsed but the demandas field is absent or
not an array, and the surrounding if has no else branch. The ok payload carries
the record count quoted in the success message. -/
inductive RestoreResp where
  | badRequest (msg : String)
  | notFound (msg : String)
  | serverError (msg : String)
  | semResposta
  | ok (totalRestauradas : Nat)
  deriving DecidableEq

/-- One insert of the restore loop (src/server.js lines 627-655): binds the
nineteen columns of the restore INSERT from a backup record with the source
transforms; a NOT NULL violation (or a tag collision with an already restored
row) makes this insert fail, logged per record and skipped. -/
def reinserirDemanda (agora : String) (nextId : Nat) (acumuladas : List Demanda)
    (d : DemandaBody) : Option Demanda :=
  if d.funcionarioId.isNone || d.nomeFuncionario.isNone || d.emailFuncionario.isNone ||
      d.categoria.isNone || d.prioridade.isNone || d.complexidade.isNone ||
      d.descricao.isNone || d.localDemanda.isNone || d.dataCriacao.isNone ||
      d.dataLimite.isNone || d.status.isNone then none
  else if d.tag.isSome && acumuladas.any (fun r => r.tag == d.tag) then none
  else some
    { id := nextId
      funcionarioId := d.funcionarioId
      nomeFuncionario := d.nomeFuncionario
      emailFuncionario := d.emailFuncionario
      categoria := d.categoria
      prioridade := d.prioridade
      complexidade := d.complexidade
      descricao := d.descricao
      localDemanda := d.localDemanda
      dataCriacao := d.dataCriacao.getD ""
      dataLimite := d.dataLimite
      status := d.status.getD ""
      isRotina := if d.isRotina.getD false then 1 else 0
      diasSemana := paramLista d.diasSemana
      tag := d.tag
      comentarios := ouVazio d.comentarios
      comentarioGestor := ouVazio d.comentarioGestor
      dataConclusao := ouNulo d.dataConclusao
      atribuidos := paramListaInt d.atribuidos
      dataAtualizacao := some agora
      criadoPor := d.criadoPor
      atualizadoPor := none }

/-- The restore insert loop: failed inserts are skipped, successful ones get
consecutive fresh ids. -/
def inserirRestauradas (agora : String) :
    Nat → List Demanda → List DemandaBody → List Demanda
  | _, acumuladas, [] => acumuladas
  | nextId, acumuladas, d :: resto =>
    match reinserirDemanda agora nextId acumuladas d with
    | none => inserirRestauradas agora nextId acumuladas resto
    | some linha => inserirRestauradas agora (nextId + 1) (acumuladas ++ [linha]) resto

/-- POST /api/restore (src/server.js lines 589-668): 400 on a falsy backupId,
404 when the id is not registered, 500 when the file read or parse throws (or
the parsed value is null, so the demandas access throws inside the try). When
the parse succeeds but the demandas field is absent or not an array, the guard
if has no else branch: nothing is mutated and no response is sent. Otherwise
the demandas table is cleared and the backup records re-inserted. -/
def restaurarBackup (agora : String) (tabelaBackups : List BackupRow)
    (backupId : Option Nat) (arquivo : String → ConteudoArquivo)
    (store : List Demanda) (nextId : Nat) : RestoreResp × List Demanda :=
  match backupId with
  | none => (.badRequest "ID do backup é obrigatório", store)
  | some bid =>
    if bid == 0 then (.badRequest "ID do backup é obrigatório", store)
    else
      match tabelaBackups.find? (fun b => b.id == bid) with
      | none => (.notFound "Backup não encontrado", store)
      | some b =>
        match arquivo b.nomeArquivo with
        | .ilegivel => (.serverError "Erro ao processar arquivo de backup", store)
        | .nulo => (.serverError "Erro ao processar arquivo de backup", store)
        | .objeto .ausente => (.semResposta, store)
        | .objeto .naoArray => (.semResposta, store)
        | .objeto (.lista ds) => (.ok ds.length, inserirRestauradas agora nextId [] ds)

/-- Two-digit decimal padding for the concrete timestamps of the examples. -/
def pad2 (n : Nat) : String :=
  if n < 10 then "0" ++ toString n else toString n

/-- Start of the current day for the concrete examples, in the date encoding. -/
def hojeExemplo : Nat :=
  codificarData 2025 10 11

/-- Concrete demanda row number i used by the examples; rows with smaller i
have later creation dates, so a store listed in i order is already sorted by
dataCriacao descending. -/
def demandaLista (i : Nat) : Demanda :=
  { id := i
    funcionarioId := some 1
    nomeFuncionario := some "Ana Lima"
    emailFuncionario := some "ana.lima@exemplo.com"
    categoria := some "Manutenção"
    prioridade := some "Importante"
    complexidade := some "Fácil"
    descricao := some "Registro de exemplo da listagem"
    localDemanda := some "Bloco A"
    dataCriacao := "2025-02-" ++ pad2 (26 - i)
    dataLimite := some "2999-01-01"
    status := "pendente"
    isRotina := 0
    diasSemana := none
    tag := some ("TAG-" ++ toString i)
    comentarios := ""
    comentarioGestor := ""
    dataConclusao := none
    atribuidos := none
    dataAtualizacao := none
    criadoPor := some 1
    atualizadoPor := none }

/-- A store of 25 matching records for the pagination example. -/
def tabelaVinteCinco : List Demanda :=
  (List.range 25).map (fun k => demandaLista (k + 1))

/-- The list request of the pagination example: page 2, limit 10, no filters. -/
def consultaPagina2 : ListQuery :=
  { page := 2, limit := 10 }

/-- Concrete auto backup row number i; larger i means registered later. -/
def linhaAutoBackup (i : Nat) : BackupRow :=
  { id := i
    nomeArquivo := "backup_auto_" ++ pad2 i ++ ".json"
    dataBackup := "envelope"
    tamanho := some 100
    tipo := "auto"
    dataCriacao := "2025-01-" ++ pad2 i }

/-- A snapshot index holding eleven auto rows, ids 1 to 11, registered in id
order. -/
def tabelaOnzeAutos : List BackupRow :=
  (List.range 11).map (fun k => linhaAutoBackup (k + 1))

/-- A registered backup row for the restore examples. -/
def linhaBackupExemplo : BackupRow :=
  { id := 1
    nomeArquivo := "backup_manual_2025.json"
    dataBackup := "envelope"
    tamanho := some 10
    tipo := "manual"
    dataCriacao := "2025-01-01" }

/-- The example create body of the specification, exactly its seven fields. -/
def corpoC8 : DemandaBody :=
  { nomeDemanda := some "Fix leak"
    categoria := some "Manutenção"
    prioridade := some "Importante"
    complexidade := some "Fácil"
    descricao := some "Pipe is leaking badly"
    localDemanda := some "Bloco A"
    dataLimite := some "2999-01-01" }

/-- The example body completed with the NOT NULL employee columns. -/
def corpoC8Completo : DemandaBody :=
  { corpoC8 with
    funcionarioId := some 7
    nomeFuncionario := some "Ana Lima"
    emailFuncionario := some "ana.lima@exemplo.com" }

/-- A body with a single validation violation: the description is too short. -/
def corpoInvalido : DemandaBody :=
  { corpoC8Completo with descricao := some "short" }

/-- Helper for the update frame property: the conditional row rewrite of the
UPDATE statement never changes the id, dataCriacao or criadoPor projection of
the table. -/
theorem mapa_condicional_preserva (m : DadosCompletos) (id : Nat) :
    ∀ store : List Demanda,
      (store.map (fun r => if r.id == id then aplicarAtualizacao r m else r)).map
          (fun r => (r.id, r.dataCriacao, r.criadoPor))
        = store.map (fun r => (r.id, r.dataCriacao, r.criadoPor))
  | [] => rfl
  | x :: xs => by
    simp only [List.map_cons, mapa_condicional_preserva m id xs]
    by_cases h : (x.id == id) = true
    · simp [h, aplicarAtualizacao]
    · simp [h]

/-- C2: the update endpoint never changes the id, the creation timestamp
dataCriacao or the creator criadoPor of any stored row — the merge object
deletes them and the UPDATE statement does not set them. Stated over every
request, it implies the claim for every successful update. -/
theorem atualizacao_preserva_id_criacao_criador (hoje : Nat) (agoraIso ip : String)
    (store : List Demanda) (audit : List AuditEntry) (id : Nat) (d : DemandaBody) :
    ((atualizarDemanda hoje agoraIso ip store audit id d).2.1).map
        (fun r => (r.id, r.dataCriacao, r.criadoPor))
      = store.map (fun r => (r.id, r.dataCriacao, r.criadoPor)) := by
  by_cases hv : 0 < (validarDemanda hoje d).length
  · simp only [atualizarDemanda, if_pos hv]
  · simp only [atualizarDemanda, if_neg hv]
    cases hfind : store.find? (fun r => r.id == id) with
    | none => simp only [hfind]
    | some ex =>
      simp only [hfind]
      split
      · rfl
      · split
        · rfl
        · exact mapa_condicional_preserva _ id store

/-- C6: deleting an id that no stored row carries answers 404 Demanda não
encontrada, leaves the record store unchanged and writes no audit entry. -/
theorem exclusao_inexistente_sem_efeito (ip : String) (store : List Demanda)
    (audit : List AuditEntry) (id : Nat) (usuarioCorpo : Option Int)
    (h : store.find? (fun r => r.id == id) = none) :
    excluirDemanda ip store audit id usuarioCorpo
      = (.notFound "Demanda não encontrada", store, audit) := by
  unfold excluirDemanda
  rw [h]

/-- Witness for C6: a one-row store and the absent id 2. -/
theorem exclusao_inexistente_sem_efeito_witness :
    (([demandaLista 1] : List Demanda).find? (fun r => r.id == 2) = none) ∧
    excluirDemanda "::1" [demandaLista 1] [] 2 none
      = (.notFound "Demanda não encontrada", [demandaLista 1], []) :=
  ⟨by decide, exclusao_inexistente_sem_efeito "::1" [demandaLista 1] [] 2 none (by decide)⟩

/-- C7: when the body has at least one validation violation, both the create
and the update endpoint answer 400 with exactly the violation list, the record
store is untouched and no audit entry is written. -/
theorem validacao_bloqueia_mutacoes (hoje : Nat) (agoraIso tagGerada ip : String)
    (store : List Demanda) (nextId : Nat) (audit : List AuditEntry) (id : Nat)
    (d : DemandaBody) (h : validarDemanda hoje d ≠ []) :
    criarDemanda hoje agoraIso tagGerada ip store nextId audit d
        = (.badRequest (validarDemanda hoje d), store, audit) ∧
    atualizarDemanda hoje agoraIso ip store audit id d
        = (.badRequest (validarDemanda hoje d), store, audit) := by
  have hl : 0 < (validarDemanda hoje d).length := List.length_pos.mpr h
  constructor
  · unfold criarDemanda
    dsimp only
    rw [if_pos hl]
  · unfold atualizarDemanda
    dsimp only
    rw [if_pos hl]

/-- Witness for C7: the too-short description body violates validation, and
both endpoints reject it without touching anything. -/
theorem validacao_bloqueia_mutacoes_witness :
    (validarDemanda hojeExemplo corpoInvalido ≠ []) ∧
    criarDemanda hojeExemplo "2025-10-11T12:00:00.000Z" "DEM-1-x" "::1" [] 1 [] corpoInvalido
        = (.badRequest (validarDemanda hojeExemplo corpoInvalido), [], []) ∧
    atualizarDemanda hojeExemplo "2025-10-11T12:00:00.000Z" "::1" [] [] 1 corpoInvalido
        = (.badRequest (validarDemanda hojeExemplo corpoInvalido), [], []) :=
  ⟨by decide,
   (validacao_bloqueia_mutacoes hojeExemplo "2025-10-11T12:00:00.000Z" "DEM-1-x" "::1"
      [] 1 [] 1 corpoInvalido (by decide)).1,
   (validacao_bloqueia_mutacoes hojeExemplo "2025-10-11T12:00:00.000Z" "DEM-1-x" "::1"
      [] 1 [] 1 corpoInvalido (by decide)).2⟩

/-- C10: on the update endpoint the validation middleware runs before the
existence lookup: an invalid body is answered 400 with the violation list for
every id, present in the store or not, and never 404. -/
theorem atualizacao_valida_corpo_antes_de_existencia (hoje : Nat) (agoraIso ip : String)
    (store : List Demanda) (audit : List AuditEntry) (id : Nat) (d : DemandaBody)
    (h : validarDemanda hoje d ≠ []) :
    (atualizarDemanda hoje agoraIso ip store audit id d).1
        = .badRequest (validarDemanda hoje d) ∧
    ∀ m : String, (atualizarDemanda hoje agoraIso ip store audit id d).1 ≠ .notFound m := by
  have hl : 0 < (validarDemanda hoje d).length := List.length_pos.mpr h
  have hfst : (atualizarDemanda hoje agoraIso ip store audit id d).1
      = .badRequest (validarDemanda hoje d) := by
    unfold atualizarDemanda
    dsimp only
    rw [if_pos hl]
  exact ⟨hfst, fun m hcontra => by rw [hfst] at hcontra; exact UpdateResp.noConfusion hcontra⟩

/-- Witness for C10: the invalid body against an empty store and the absent id
99 gets the 400 violation response, not a 404. -/
theorem atualizacao_valida_corpo_antes_de_existencia_witness :
    (validarDemanda hojeExemplo corpoInvalido ≠ []) ∧
    (atualizarDemanda hojeExemplo "2025-10-11T12:00:00.000Z" "::1" [] [] 99 corpoInvalido).1
        = .badRequest (validarDemanda hojeExemplo corpoInvalido) ∧
    (atualizarDemanda hojeExemplo "2025-10-11T12:00:00.000Z" "::1" [] [] 99 corpoInvalido).1
        ≠ .notFound "Demanda não encontrada" :=
  ⟨by decide,
   (atualizacao_valida_corpo_antes_de_existencia hojeExemplo "2025-10-11T12:00:00.000Z" "::1"
      [] [] 99 corpoInvalido (by decide)).1,
   (atualizacao_valida_corpo_antes_de_existencia hojeExemplo "2025-10-11T12:00:00.000Z" "::1"
      [] [] 99 corpoInvalido (by decide)).2 "Demanda não encontrada"⟩

/-- C1: run on a snapshot index holding eleven auto rows registered in id
order, the pruning step keeps only the oldest row and deletes the ten most
recently created ones — the inverse of the claimed retention: the SELECT
gathers the ids after the newest ten, and the DELETE removes every auto row
not in that list. -/
theorem poda_auto_mantem_somente_a_mais_antiga :
    podarBackupsAuto tabelaOnzeAutos = [linhaAutoBackup 1] := by
  decide

/-- C9: the snapshot registration never stores an index row: the tamanho
parameter is backupData.length, undefined for the envelope object, so the
insert violates the NOT NULL constraint on tamanho, fails, and is swallowed;
in addition the dataBackup parameter is the serialized envelope rather than
the backup timestamp. -/
theorem registro_de_backup_nunca_insere (tabela : List BackupRow) (nextId : Nat)
    (timestamp tipo serializado registradoEm : String) :
    criarBackupRegistro tabela nextId timestamp tipo serializado registradoEm = tabela :=
  rfl

/-- C3: on 25 matching records, page 2 with limit 10 returns rows 11 to 20 of
the ordered sequence, but the pagination metadata has an undefined total and a
NaN page count (both modelled none), because the rewritten count query carries
no alias and the handler reads a property named count that the row does not
have. The claim expects total 25 and pages 3. -/
theorem listagem_pagina2_total_indefinido :
    (listarDemandas tabelaVinteCinco consultaPagina2).data
        = (List.range 10).map (fun k => demandaLista (k + 11)) ∧
    (listarDemandas tabelaVinteCinco consultaPagina2).pagination
        = { page := 2, limit := 10, total := none, pages := none } := by
  constructor
  · decide
  · decide

/-- C4: a missing, empty or one-character query returns the empty list, as
claimed; but the four-character query leak is answered with the no-such-column
500 error, never a ranked result list, because the search SQL references the
column nomeDemanda that the demandas schema does not declare. -/
theorem busca_curta_vazia_e_longa_erra_coluna :
    buscarDemandas tabelaVinteCinco none = .ok [] ∧
    buscarDemandas tabelaVinteCinco (some "") = .ok [] ∧
    buscarDemandas tabelaVinteCinco (some "a") = .ok [] ∧
    buscarDemandas tabelaVinteCinco (some "leak")
        = .serverError "no such column: nomeDemanda" := by
  refine ⟨rfl, rfl, rfl, ?_⟩
  decide

/-- C5 counterexample: a registered snapshot whose file parses to an object
without a demandas array leaves the record store unchanged, but the handler
sends no response at all instead of the claimed Corrupt-backup 500. -/
theorem restauracao_campo_ausente_sem_resposta :
    restaurarBackup "2025-03-01T00:00:00.000Z" [linhaBackupExemplo] (some 1)
        (fun _ => .objeto .ausente) [demandaLista 1] 2
      = (.semResposta, [demandaLista 1]) ∧
    RestoreResp.semResposta
      ≠ RestoreResp.serverError "Erro ao processar arquivo de backup" := by
  constructor
  · decide
  · decide

/-- C5 amended: for a registered snapshot, an unreadable or unparsable file
(or one parsing to null) is answered 500 with no mutation; a file parsing to
an object whose demandas field is absent or not an array also leaves the store
unchanged, but no response is sent. -/
theorem restauracao_corrompida_nao_muta (agora : String) (tabelaBackups : List BackupRow)
    (bid : Nat) (b : BackupRow) (arquivo : String → ConteudoArquivo)
    (store : List Demanda) (nextId : Nat)
    (hbid : bid ≠ 0)
    (hfind : tabelaBackups.find? (fun r => r.id == bid) = some b) :
    (arquivo b.nomeArquivo = .ilegivel →
      restaurarBackup agora tabelaBackups (some bid) arquivo store nextId
        = (.serverError "Erro ao processar arquivo de backup", store)) ∧
    (arquivo b.nomeArquivo = .nulo →
      restaurarBackup agora tabelaBackups (some bid) arquivo store nextId
        = (.serverError "Erro ao processar arquivo de backup", store)) ∧
    (arquivo b.nomeArquivo = .objeto .ausente →
      restaurarBackup agora tabelaBackups (some bid) arquivo store nextId
        = (.semResposta, store)) ∧
    (arquivo b.nomeArquivo = .objeto .naoArray →
      restaurarBackup agora tabelaBackups (some bid) arquivo store nextId
        = (.semResposta, store)) := by
  have hb : (bid == 0) = false := by simpa using hbid
  refine ⟨?_, ?_, ?_, ?_⟩ <;> intro harq <;>
    simp [restaurarBackup, hb, hfind, harq]

/-- Witness for C5: the registered example snapshot with a file whose parsed
object has a non-array demandas field; no response, no mutation. -/
theorem restauracao_corrompida_nao_muta_witness :
    ((1 : Nat) ≠ 0) ∧
    (([linhaBackupExemplo] : List BackupRow).find? (fun r => r.id == 1)
        = some linhaBackupExemplo) ∧
    restaurarBackup "2025-03-01T00:00:00.000Z" [linhaBackupExemplo] (some 1)
        (fun _ => .objeto .naoArray) [] 1
      = (.semResposta, []) :=
  ⟨by decide, by decide,
   (restauracao_corrompida_nao_muta "2025-03-01T00:00:00.000Z" [linhaBackupExemplo] 1
      linhaBackupExemplo (fun _ => .objeto .naoArray) [] 1 (by decide) (by decide)).2.2.2 rfl⟩

/-- C8 counterexample: the specification example body, exactly as given,
passes validation but carries no funcionarioId, nomeFuncionario or
emailFuncionario; those columns are NOT NULL, so the insert fails and the
endpoint answers 500, not the claimed 200 success. -/
theorem criacao_exemplo_falha_not_null :
    criarDemanda hojeExemplo "2025-10-11T12:00:00.000Z" (gerarTag 1760183000000 "k3j9q2w1z")
        "::1" [] 1 [] corpoC8
      = (.serverError "NOT NULL constraint failed", [], []) := by
  decide

/-- C8 amended: the same body completed with funcionarioId, nomeFuncionario
and emailFuncionario succeeds with success true, and the stored record has the
generated DEM- tag and the default status pendente. -/
theorem criacao_exemplo_completo_sucede :
    (criarDemanda hojeExemplo "2025-10-11T12:00:00.000Z" (gerarTag 1760183000000 "k3j9q2w1z")
        "::1" [] 1 [] corpoC8Completo).1
      = .ok 1 { corpoC8Completo with tag := some (gerarTag 1760183000000 "k3j9q2w1z") }
          "2025-10-11T12:00:00.000Z" ∧
    ((criarDemanda hojeExemplo "2025-10-11T12:00:00.000Z" (gerarTag 1760183000000 "k3j9q2w1z")
        "::1" [] 1 [] corpoC8Completo).2.1).map (fun r => (r.status, r.tag))
      = [("pendente", some (gerarTag 1760183000000 "k3j9q2w1z"))] := by
  constructor
  · decide
  · decide

end GestaoDemander
